import Mathlib

set_option linter.unusedVariables false

/-!
Shallow embedding of the session / stream-reconciliation core of the
`ai_annotator` repository (TypeScript), covering:

* `src/services/liveApiService.ts`   — `LiveApiService` (duplex Live API session)
* `src/services/geminiService.ts`    — `GeminiService` (legacy session with
  resumption handles, summary re-request, localStorage persistence)
* `src/services/dualGeminiSessionManager.ts` — `DualGeminiSessionManager`
  (dual-session coordinator with the pending-transcript FIFO queue)
* `src/components/InterviewMode.tsx` — the `onModelResponse` handler that
  parses `TRANSCRIPT:` / `REPLY:` labelled turns.

The embedding is event-driven: every JavaScript callback becomes a pure Lean
function from a state record (the class's mutable fields) to a new state plus
a list of emitted callback invocations ("events").  JS truthiness of strings
(empty string is falsy) is modelled explicitly.  Invoking an optional callback
(`onPartialResponse?.()` etc.) is recorded as an event unconditionally: the
event trace records the invocations the service performs on whichever
callbacks the consumer registered.
-/

/-- JS truthiness of a `string` value: the empty string is falsy. -/
def jsTruthy (s : String) : Bool := !(s == "")

/-- JS truthiness of a `string | null | undefined` value. -/
def jsTruthyOpt : Option String → Bool
  | none => false
  | some s => jsTruthy s

/-- JS `String.prototype.trim()`: strip leading and trailing whitespace
(structural on the character list, so it evaluates on concrete inputs). -/
def jsTrim (s : String) : String :=
  String.mk (((s.data.dropWhile Char.isWhitespace).reverse.dropWhile Char.isWhitespace).reverse)

/-- Concatenation of a list of strings in order (`+=` accumulation). -/
def concatAll : List String → String
  | [] => ""
  | t :: ts => t ++ concatAll ts

/-- `pat` is a prefix of `cs` (character-exact). Used for substring search. -/
def startsWithL : List Char → List Char → Bool
  | [], _ => true
  | _ :: _, [] => false
  | p :: ps, c :: cs => p == c && startsWithL ps cs

/-- `pat` occurs somewhere in `cs` (JS `String.prototype.includes`). -/
def occursIn (pat : List Char) : List Char → Bool
  | [] => startsWithL pat []
  | c :: cs => startsWithL pat (c :: cs) || occursIn pat cs

/-- JS `s.includes(pat)`. -/
def containsSub (s pat : String) : Bool := occursIn pat.data s.data

/-- JS `s.toLowerCase()` (ASCII-faithful). -/
def lowerStr (s : String) : String := s.map Char.toLower

section LiveApi

/-! ### `LiveApiService` (src/services/liveApiService.ts) -/

/-- One entry of `modelTurn.parts`; `text` may be absent. -/
structure TPart where
  text : Option String
deriving DecidableEq

/-- `serverContent.modelTurn`; `parts` may be absent. -/
structure ModelTurn where
  parts : Option (List TPart)
deriving DecidableEq

/-- `serverContent.userTranscription` (accessed through a type assertion). -/
structure UserTranscription where
  text : Option String
  isFinal : Option Bool
deriving DecidableEq

/-- The fields of `message.serverContent` the handler reads. -/
structure ServerContent where
  modelTurn : Option ModelTurn := none
  turnComplete : Bool := false
  interrupted : Bool := false
  userTranscription : Option UserTranscription := none
  transcript : Option String := none
deriving DecidableEq

/-- A `LiveServerMessage` as read by `LiveApiService.connect`'s `onmessage`. -/
structure LiveServerMessage where
  serverContent : Option ServerContent := none
  toolCall : Bool := false
deriving DecidableEq

/-- Mutable fields of the `LiveApiService` class.  `session` is `true` iff the
connection handle (`this.session`) is assigned; `reconnectTimer` holds the
delay of a pending `setTimeout` reconnect, `none` when no timer is pending. -/
structure LState where
  session : Bool
  isIntentionallyClosing : Bool
  currentMessage : String
  reconnectAttempts : Nat
  reconnectTimer : Option Nat
  hasSignaledTurnStart : Bool
deriving DecidableEq

/-- Callback invocations performed by `LiveApiService` on its consumer. -/
inductive LEvent where
  | modelTurnStart
  | partialResponse (text : String)
  | transcriptEvent (text : String) (isFinal : Bool)
  | modelResponse (text : String)
  | errorEvent (msg : String)
  | closeEvent (reason : String)
  | reconnecting
deriving DecidableEq

/-- The `for (const part of parts) if (part.text) currentMessage += part.text`
loop, also forwarding each truthy chunk to `onPartialResponse`. -/
def appendParts (parts : List TPart) (buf : String) : String × List LEvent :=
  parts.foldl
    (fun acc p =>
      match p.text with
      | some t => if jsTruthy t then (acc.1 ++ t, acc.2 ++ [LEvent.partialResponse t]) else acc
      | none => acc)
    (buf, [])

/-- `LiveApiService.connect`'s `onmessage` handler (lines 84–157), as a pure
state transformer returning the emitted callback invocations in order. -/
def lOnmessage (st : LState) (msg : LiveServerMessage) : LState × List LEvent :=
  let sc := msg.serverContent
  -- model-turn-start detection (one-shot per turn)
  let mtPresent := match sc with
    | some c => c.modelTurn.isSome
    | none => false
  let p1 :=
    if mtPresent && !st.hasSignaledTurnStart then
      ({ st with hasSignaledTurnStart := true }, [LEvent.modelTurnStart])
    else (st, [])
  let st1 := p1.1
  -- streaming model content
  let parts := match sc with
    | some c =>
      match c.modelTurn with
      | some mt => mt.parts.getD []
      | none => []
    | none => []
  let p2 := appendParts parts st1.currentMessage
  let st2 := { st1 with currentMessage := p2.1 }
  -- user transcription
  let evT := match sc with
    | some c =>
      match c.userTranscription with
      | some tr =>
        match tr.text with
        | some t => if jsTruthy t then [LEvent.transcriptEvent t (tr.isFinal.getD false)] else []
        | none => []
      | none => []
    | none => []
  -- transcript attached to turnComplete
  let tc := match sc with
    | some c => c.turnComplete
    | none => false
  let evT2 := match sc with
    | some c =>
      if c.turnComplete then
        match c.transcript with
        | some t => if jsTruthy t then [LEvent.transcriptEvent t true] else []
        | none => []
      else []
    | none => []
  -- turn complete: flush the accumulation buffer
  let p3 :=
    if tc then
      let stA := { st2 with hasSignaledTurnStart := false }
      if jsTruthy (jsTrim stA.currentMessage) then
        ({ stA with currentMessage := "" }, [LEvent.modelResponse (jsTrim stA.currentMessage)])
      else ({ stA with currentMessage := "" }, [])
    else (st2, [])
  let st3 := p3.1
  -- interruption: reset the one-shot flag, keep the buffer
  let intr := match sc with
    | some c => c.interrupted
    | none => false
  let st4 := if intr then { st3 with hasSignaledTurnStart := false } else st3
  (st4, p1.2 ++ p2.2 ++ evT ++ evT2 ++ p3.2)

/-- Deliver a list of messages in order, collecting all events. -/
def lRun : LState → List LiveServerMessage → LState × List LEvent
  | st, [] => (st, [])
  | st, m :: ms =>
    let r := lOnmessage st m
    let rest := lRun r.1 ms
    (rest.1, r.2 ++ rest.2)

/-- A message carrying exactly one content fragment `t`. -/
def lFragMsg (t : String) : LiveServerMessage :=
  { serverContent := some { modelTurn := some { parts := some [{ text := some t }] } } }

/-- The turn-complete boundary message. -/
def lTurnCompleteMsg : LiveServerMessage :=
  { serverContent := some { turnComplete := true } }

/-- The `interrupted` signal message. -/
def lInterruptedMsg : LiveServerMessage :=
  { serverContent := some { interrupted := true } }

/-- The completed-turn texts delivered to `onModelResponse`, in order. -/
def modelResponses (evs : List LEvent) : List String :=
  evs.filterMap fun e =>
    match e with
    | LEvent.modelResponse t => some t
    | _ => none

end LiveApi

section StringLemmas

theorem strAppend_empty (s : String) : s ++ "" = s := by
  cases s with
  | mk d => exact congrArg String.mk (List.append_nil d)

theorem strAppend_assoc (a b c : String) : a ++ b ++ c = a ++ (b ++ c) := by
  cases a with
  | mk da =>
    cases b with
    | mk db =>
      cases c with
      | mk dc => exact congrArg String.mk (List.append_assoc da db dc)

end StringLemmas

section LiveApiLemmas

theorem modelResponses_append (a b : List LEvent) :
    modelResponses (a ++ b) = modelResponses a ++ modelResponses b := by
  simp [modelResponses, List.filterMap_append]

/-- Delivering one fragment appends its text to the buffer, emits no completed
turn, and marks the turn as started. -/
theorem lOnmessage_frag (st : LState) (t : String) :
    lOnmessage st (lFragMsg t) =
      ({ st with currentMessage := st.currentMessage ++ t, hasSignaledTurnStart := true },
        (if st.hasSignaledTurnStart then [] else [LEvent.modelTurnStart]) ++
          (if jsTruthy t then [LEvent.partialResponse t] else [])) := by
  by_cases h : st.hasSignaledTurnStart <;>
    by_cases ht : t = "" <;>
      simp [lOnmessage, lFragMsg, appendParts, jsTruthy, h, ht, strAppend_empty]

/-- Delivering a list of fragments concatenates their texts onto the buffer
and emits no completed turn. -/
theorem lRun_frags (ts : List String) (st : LState) :
    (lRun st (ts.map lFragMsg)).1.currentMessage = st.currentMessage ++ concatAll ts ∧
      modelResponses (lRun st (ts.map lFragMsg)).2 = [] := by
  induction ts generalizing st with
  | nil => simp [lRun, concatAll, strAppend_empty, modelResponses]
  | cons t ts ih =>
    simp only [List.map_cons, lRun, lOnmessage_frag]
    constructor
    · rw [(ih _).1]
      simp [concatAll, strAppend_assoc]
    · rw [modelResponses_append, (ih _).2]
      by_cases h : st.hasSignaledTurnStart <;>
        by_cases ht : jsTruthy t <;>
          simp [modelResponses, h, ht]

end LiveApiLemmas

section GeminiModel

/-! ### `GeminiService` (src/services/geminiService.ts) -/

/-- `message.sessionResumptionUpdate`. -/
structure ResumptionUpdate where
  resumable : Bool
  newHandle : Option String
deriving DecidableEq

/-- The fields of `message.serverContent` read by `GeminiService`. -/
structure GServerContent where
  modelTurn : Option ModelTurn := none
  turnComplete : Bool := false
deriving DecidableEq

/-- A `LiveServerMessage` as read by `GeminiService.connect`'s `onmessage`. -/
structure GMessage where
  sessionResumptionUpdate : Option ResumptionUpdate := none
  goAway : Bool := false
  serverContent : Option GServerContent := none
deriving DecidableEq

/-- Mutable fields of the `GeminiService` class plus the durable local-storage
entry under `SESSION_HANDLE_KEY` (`storedHandle`).  `pendingSummaryRerequest`
records a `setTimeout(() => this.requestSummary(), 1000)` scheduled by
`onopen`; `summaryTimer` records a pending summary timeout; `reconnectTimer`
holds the delay of a pending reconnect `setTimeout`.  `sentHandles` is the
trace of `sessionResumption` handles sent with each connect attempt
(`none` = empty `sessionResumption: {}` config). -/
structure GState where
  session : Bool
  isIntentionallyClosing : Bool
  currentMessage : String
  currentSessionHandle : Option String
  storedHandle : Option String
  reconnectAttempts : Nat
  reconnectTimer : Option Nat
  isExpectingSummary : Bool
  summaryTimer : Bool
  summaryCallbackSet : Bool
  pendingSummaryRerequest : Bool
  sentHandles : List (Option String)
deriving DecidableEq

/-- Callback invocations performed by `GeminiService` on its consumer. -/
inductive GEvent where
  | onMessageEv (text : String)
  | onErrorEv (msg : String)
  | onCloseEv (reason : String)
  | reconnectingEv
  | summaryCompleteEv
deriving DecidableEq

/-- `GeminiService.maxReconnectAttempts`. -/
def maxReconnectAttempts : Nat := 3

/-- `saveSessionHandle`: persist to localStorage and memory. -/
def saveSessionHandle (st : GState) (handle : String) : GState :=
  { st with storedHandle := some handle, currentSessionHandle := some handle }

/-- `clearSessionHandle`: remove from localStorage and memory. -/
def clearSessionHandleFn (st : GState) : GState :=
  { st with storedHandle := none, currentSessionHandle := none }

/-- The summary-indicator patterns of `checkForSummaryCompletion`. -/
def summaryIndicators : List String :=
  ["Individual 5-second summaries",
   "Data Point 1 (0-5 seconds)",
   "Data Point 12 (55-60 seconds)",
   "comprehensive analysis",
   "full comprehensive analysis",
   "Visual Evolution (0-60 seconds)",
   "Audio Summary (Complete Minute)",
   "Teaching Flow:",
   "Key Takeaways:"]

/-- Count the matches of the global regex `/Data Point \d+/g`: scan left to
right; after a match, the scan resumes past the matched digits (fuel-based
recursion bounded by the input length). -/
def countDataPointAux : Nat → List Char → Nat
  | 0, _ => 0
  | _ + 1, [] => 0
  | fuel + 1, c :: cs =>
    if startsWithL "Data Point ".data (c :: cs) then
      let afterLit := (c :: cs).drop 11
      match afterLit with
      | d :: _ =>
        if d.isDigit then 1 + countDataPointAux fuel (afterLit.dropWhile Char.isDigit)
        else countDataPointAux fuel cs
      | [] => countDataPointAux fuel cs
    else countDataPointAux fuel cs

/-- `(message.match(/Data Point \d+/g) || []).length`. -/
def countDataPoints (s : String) : Nat := countDataPointAux s.data.length s.data

/-- `checkForSummaryCompletion` (lines 268–310). -/
def gCheckForSummaryCompletion (st : GState) (message : String) : GState × List GEvent :=
  if !st.isExpectingSummary || !st.summaryCallbackSet then (st, [])
  else
    let hasSummaryContent :=
      summaryIndicators.any fun ind => containsSub (lowerStr message) (lowerStr ind)
    let isSubstantialResponse := message.length > 150
    let hasMultipleDataPoints := countDataPoints message ≥ 5
    if hasSummaryContent && isSubstantialResponse && hasMultipleDataPoints then
      ({ st with isExpectingSummary := false, summaryTimer := false },
        [GEvent.summaryCompleteEv])
    else (st, [])

/-- `GeminiService.connect`'s `onmessage` handler (lines 152–191). -/
def gOnmessage (st : GState) (msg : GMessage) : GState × List GEvent :=
  -- session resumption update
  let st1 := match msg.sessionResumptionUpdate with
    | some u =>
      if u.resumable && jsTruthyOpt u.newHandle then saveSessionHandle st (u.newHandle.getD "")
      else st
    | none => st
  -- goAway is log-only
  -- model content
  let parts := match msg.serverContent with
    | some c =>
      match c.modelTurn with
      | some mt => mt.parts.getD []
      | none => []
    | none => []
  let buf := parts.foldl
    (fun acc p =>
      match p.text with
      | some t => if jsTruthy t then acc ++ t else acc
      | none => acc)
    st1.currentMessage
  let st2 := { st1 with currentMessage := buf }
  -- turn complete: flush
  let tc := match msg.serverContent with
    | some c => c.turnComplete
    | none => false
  if tc then
    if jsTruthy (jsTrim st2.currentMessage) then
      let completeMessage := (jsTrim st2.currentMessage)
      let p := gCheckForSummaryCompletion st2 completeMessage
      ({ p.1 with currentMessage := "" }, [GEvent.onMessageEv completeMessage] ++ p.2)
    else ({ st2 with currentMessage := "" }, [])
  else (st2, [])

/-- Deliver a list of messages to `GeminiService` in order. -/
def gRun : GState → List GMessage → GState × List GEvent
  | st, [] => (st, [])
  | st, m :: ms =>
    let r := gOnmessage st m
    let rest := gRun r.1 ms
    (rest.1, r.2 ++ rest.2)

/-- A `GeminiService` message carrying exactly one content fragment `t`. -/
def gFragMsg (t : String) : GMessage :=
  { serverContent := some { modelTurn := some { parts := some [{ text := some t }] } } }

/-- The `GeminiService` turn-complete boundary message. -/
def gTurnCompleteMsg : GMessage :=
  { serverContent := some { turnComplete := true } }

/-- The completed-turn texts delivered to `onMessage`, in order. -/
def gMessagesOut (evs : List GEvent) : List String :=
  evs.filterMap fun e =>
    match e with
    | GEvent.onMessageEv t => some t
    | _ => none

/-- The `onopen` callback of `GeminiService.connect` (lines 130–151):
when resuming (`handleToUse` truthy) while a summary was expected, the
accumulation buffer is cleared and a summary re-request is scheduled;
the reconnect counter is always reset. -/
def gOnopen (handleToUse : Option String) (st : GState) : GState :=
  let st1 :=
    if jsTruthyOpt handleToUse then
      if st.isExpectingSummary then
        { st with currentMessage := "", pendingSummaryRerequest := true }
      else st
    else st
  { st1 with reconnectAttempts := 0 }

/-- Outcome of one `ai.live.connect` transport attempt. -/
inductive ConnectOutcome where
  | success
  | failure (msg : String)
deriving DecidableEq

/-- `GeminiService.connect` (lines 98–239).  `resumeHandle` distinguishes the
JS argument being omitted (`none`) from `null`/a string (`some none` /
`some (some h)`).  `outcomes` supplies the transport result of each successive
`ai.live.connect` attempt (the handle-not-found path retries recursively).
The second component is `.ok` when the promise resolves and `.error m` when
`connect` rethrows the connection error; the thrown message is also what is
passed to `callbacks.onError`.  The returned state keeps the field mutations
performed before a throw. -/
def gConnect : GState → Option (Option String) → List ConnectOutcome →
    GState × Except String Unit
  | st, _, [] =>
    -- modelling artifact: no transport outcome left to consume (unreachable
    -- when the caller supplies one outcome per attempt)
    if st.session then (st, Except.ok ()) else (st, Except.error "no transport outcome")
  | st, resumeHandle, o :: rest =>
    if st.session then (st, Except.ok ())   -- "Session already exists." logged no-op
    else
      let st0 := { st with isIntentionallyClosing := false }
      let handleToUse : Option String := match resumeHandle with
        | none => st0.currentSessionHandle
        | some h => h
      let st1 := { st0 with sentHandles := st0.sentHandles ++ [handleToUse] }
      match o with
      | ConnectOutcome.success =>
        ({ gOnopen handleToUse st1 with session := true }, Except.ok ())
      | ConnectOutcome.failure msg =>
        if containsSub msg "session not found" || containsSub msg "not found" then
          let st2 := clearSessionHandleFn st1
          if jsTruthyOpt handleToUse && st2.reconnectAttempts == 0 then
            gConnect { st2 with reconnectAttempts := st2.reconnectAttempts + 1 } (some none) rest
          else (st2, Except.error msg)
        else (st1, Except.error msg)

/-- `attemptReconnection` (lines 242–265): increment the counter, compute the
exponential-backoff delay and schedule the reconnect timer. -/
def gAttemptReconnection (st : GState) : GState × List GEvent :=
  let st1 := { st with reconnectAttempts := st.reconnectAttempts + 1 }
  let delay := min (1000 * 2 ^ (st1.reconnectAttempts - 1)) 5000
  ({ st1 with reconnectTimer := some delay }, [GEvent.reconnectingEv])

/-- The `onclose` callback of `GeminiService.connect` (lines 196–215). -/
def gOnclose (st : GState) (reason : String) : GState × List GEvent :=
  if st.isIntentionallyClosing then ({ st with session := false }, [])
  else
    let st1 := { st with session := false }
    if jsTruthyOpt st1.currentSessionHandle &&
        st1.reconnectAttempts < maxReconnectAttempts then
      gAttemptReconnection st1
    else if st1.reconnectAttempts ≥ maxReconnectAttempts then
      (clearSessionHandleFn st1,
        [GEvent.onCloseEv (if jsTruthy reason then reason
          else "Max reconnection attempts reached")])
    else
      (st1, [GEvent.onCloseEv (if jsTruthy reason then reason else "Unknown")])

/-- `GeminiService.disconnect` (lines 385–407): cancel timers; if connected,
set the intentional-close flag, reset the accumulator and the summary
expectation, close and drop the handle.  The resumption handle is left alone. -/
def gDisconnect (st : GState) : GState :=
  let st1 := { st with reconnectTimer := none }
  let st2 := { st1 with summaryTimer := false }
  if st2.session then
    { st2 with
        isIntentionallyClosing := true
        currentMessage := ""
        isExpectingSummary := false
        session := false }
  else st2

/-- `GeminiService.clearSession` (lines 410–420). -/
def gClearSession (st : GState) : GState :=
  let st1 := { st with summaryTimer := false }
  let st2 := gDisconnect st1
  let st3 := clearSessionHandleFn st2
  { st3 with reconnectAttempts := 0 }

/-- Result of an outbound send operation, as observed by the caller. -/
inductive SendResult where
  | ok
  | noSession               -- no connection handle: logged no-op
  | caughtError (msg : String)  -- transport failure caught and logged inside
  | thrown (msg : String)   -- exception propagates past the service boundary
deriving DecidableEq

/-- `true` iff an exception propagated to the caller. -/
def SendResult.escapes : SendResult → Bool
  | SendResult.thrown _ => true
  | _ => false

/-- `GeminiService.sendFrame` (lines 312–349): no-op without a session; sets
the summary expectation when the prompt announces data set 12; the
`sendClientContent` call is NOT wrapped in try/catch, so a synchronous
transport failure propagates. -/
def gSendFrame (st : GState) (base64Image : String) (base64Audio : Option String)
    (audioMimeType : Option String) (prompt : Option String)
    (transport : Except String Unit) : GState × SendResult :=
  if !st.session then (st, SendResult.noSession)
  else
    let isSummaryRequest := match prompt with
      | some p => containsSub p "This is data set 12"
      | none => false
    let st1 := if isSummaryRequest then { st with isExpectingSummary := true } else st
    match transport with
    | Except.ok _ => (st1, SendResult.ok)
    | Except.error e => (st1, SendResult.thrown e)

/-- `GeminiService.requestSummary` (lines 351–383): no-op without a session;
sets the expectation flag and the 30s timeout; the `sendClientContent` call is
NOT wrapped in try/catch, so a synchronous transport failure propagates. -/
def gRequestSummary (st : GState) (transport : Except String Unit) :
    GState × SendResult :=
  if !st.session then (st, SendResult.noSession)
  else
    let st1 := { st with isExpectingSummary := true, summaryTimer := true }
    match transport with
    | Except.ok _ => (st1, SendResult.ok)
    | Except.error e => (st1, SendResult.thrown e)

end GeminiModel

section LiveApiLifecycle

/-! ### `LiveApiService` lifecycle and sends (src/services/liveApiService.ts) -/

/-- `LiveApiService.connect` (lines 52–190), with the transport outcome of the
single `ai.live.connect` attempt supplied as input.  A call on an already-open
session logs a warning and returns successfully without touching the state. -/
def lConnect (st : LState) (outcome : ConnectOutcome) : LState × Except String Unit :=
  if st.session then (st, Except.ok ())
  else
    let st0 := { st with isIntentionallyClosing := false }
    match outcome with
    | ConnectOutcome.success =>
      -- onopen fires: reconnect counter reset; session object assigned
      ({ st0 with session := true, reconnectAttempts := 0 }, Except.ok ())
    | ConnectOutcome.failure msg => (st0, Except.error msg)

/-- `LiveApiService.attemptReconnection` (lines 192–209). -/
def lAttemptReconnection (st : LState) : LState × List LEvent :=
  let st1 := { st with reconnectAttempts := st.reconnectAttempts + 1 }
  let delay := min (1000 * 2 ^ (st1.reconnectAttempts - 1)) 5000
  ({ st1 with reconnectTimer := some delay }, [LEvent.reconnecting])

/-- The `onclose` callback of `LiveApiService.connect` (lines 162–178). -/
def lOnclose (st : LState) (reason : String) : LState × List LEvent :=
  if st.isIntentionallyClosing then ({ st with session := false }, [])
  else
    let st1 := { st with session := false }
    if st1.reconnectAttempts < maxReconnectAttempts then
      lAttemptReconnection st1
    else
      (st1, [LEvent.closeEvent
        (if jsTruthy reason then reason else "Max reconnection attempts reached")])

/-- `LiveApiService.sendRealtimeAudio` (lines 212–232): logged no-op without a
session; transport failures are caught and logged, never rethrown. -/
def lSendRealtimeAudio (st : LState) (audioData : String) (mimeType : String)
    (transport : Except String Unit) : LState × SendResult :=
  if !st.session then (st, SendResult.noSession)
  else
    match transport with
    | Except.ok _ => (st, SendResult.ok)
    | Except.error e => (st, SendResult.caughtError e)

/-- `LiveApiService.sendVideoFrame` (lines 235–255): same try/catch shape. -/
def lSendVideoFrame (st : LState) (base64Image : String)
    (transport : Except String Unit) : LState × SendResult :=
  if !st.session then (st, SendResult.noSession)
  else
    match transport with
    | Except.ok _ => (st, SendResult.ok)
    | Except.error e => (st, SendResult.caughtError e)

/-- `LiveApiService.sendText` (lines 258–275): same try/catch shape. -/
def lSendText (st : LState) (text : String) (transport : Except String Unit) :
    LState × SendResult :=
  if !st.session then (st, SendResult.noSession)
  else
    match transport with
    | Except.ok _ => (st, SendResult.ok)
    | Except.error e => (st, SendResult.caughtError e)

/-- `LiveApiService.endAudioStream` (lines 278–291): silent no-op without a
session; transport failures are caught and logged. -/
def lEndAudioStream (st : LState) (transport : Except String Unit) :
    LState × SendResult :=
  if !st.session then (st, SendResult.noSession)
  else
    match transport with
    | Except.ok _ => (st, SendResult.ok)
    | Except.error e => (st, SendResult.caughtError e)

/-- `LiveApiService.disconnect` (lines 293–306). -/
def lDisconnect (st : LState) : LState :=
  let st1 := { st with reconnectTimer := none }
  if st1.session then
    { st1 with
        isIntentionallyClosing := true
        currentMessage := ""
        session := false }
  else st1

end LiveApiLifecycle

section Coordinator

/-! ### `DualGeminiSessionManager` (src/services/dualGeminiSessionManager.ts) -/

/-- Mutable fields of the coordinator.  `replyServiceConnected` models
`this.replyService !== null`; `sentToReply` is the trace of `sendText`
payloads submitted to the reply session, in order. -/
structure CoordState where
  transcripts : List String
  currentTranscript : String
  replies : List String
  currentReply : String
  transcriptQueue : List String
  isReplyGenerating : Bool
  replyServiceConnected : Bool
  sentToReply : List String
deriving DecidableEq

/-- The text submitted to the reply session for transcript `t` (line 280). -/
def replyPromptFor (t : String) : String :=
  "Interviewer said: \"" ++ t ++ "\". Please provide your response."

/-- `processTranscriptQueue` (lines 268–281).  Note: it does NOT set
`isReplyGenerating` when it pops and submits the head transcript. -/
def processTranscriptQueue (st : CoordState) : CoordState :=
  if !st.replyServiceConnected || st.transcriptQueue.isEmpty || st.isReplyGenerating then st
  else
    match st.transcriptQueue with
    | [] => st
    | t :: rest =>
      let st1 := { st with transcriptQueue := rest }
      if !(jsTruthy t) then st1
      else { st1 with sentToReply := st1.sentToReply ++ [replyPromptFor t] }

/-- The transcript service's `onModelResponse` callback (lines 128–155),
parameterized by the outcome of `JSON.parse` on the cleaned text: `none` when
parsing throws, `some tr` when it yields an object whose `transcript`
property is `tr` (absent = `some none`). -/
def coordOnTranscriptResponse (st : CoordState) (parsed : Option (Option String)) :
    CoordState :=
  let st1 :=
    match parsed with
    | some (some t) =>
      if jsTruthy t then
        processTranscriptQueue
          { st with
              transcripts := st.transcripts ++ [t]
              transcriptQueue := st.transcriptQueue ++ [t] }
      else st
    | _ => st
  { st1 with currentTranscript := "" }

/-- The reply service's `onPartialResponse` callback (lines 167–172): shows a
placeholder and marks the reply session as generating. -/
def coordOnReplyPartial (st : CoordState) : CoordState :=
  { st with
      currentReply := if st.currentReply == "" then "..." else st.currentReply
      isReplyGenerating := true }

/-- The reply service's `onModelResponse` callback (lines 173–201),
parameterized like `coordOnTranscriptResponse` but for the `reply` property:
clears the generating flag and drains the next queued transcript. -/
def coordOnReplyResponse (st : CoordState) (parsed : Option (Option String)) :
    CoordState :=
  let st1 :=
    match parsed with
    | some (some r) =>
      if jsTruthy r then { st with replies := st.replies ++ [r] } else st
    | _ => st
  processTranscriptQueue { st1 with currentReply := "", isReplyGenerating := false }

/-- The externally-triggered events that drive the coordinator. -/
inductive CoordEvent where
  | transcriptResponse (parsed : Option (Option String))
  | replyChunk
  | replyResponse (parsed : Option (Option String))
deriving DecidableEq

def coordStep (st : CoordState) : CoordEvent → CoordState
  | CoordEvent.transcriptResponse p => coordOnTranscriptResponse st p
  | CoordEvent.replyChunk => coordOnReplyPartial st
  | CoordEvent.replyResponse p => coordOnReplyResponse st p

def coordRun : CoordState → List CoordEvent → CoordState
  | st, [] => st
  | st, e :: es => coordRun (coordStep st e) es

/-- The coordinator state right after `start` connected both services
(lines 96–106 reset everything; line 214 assigns `replyService`). -/
def coordInit : CoordState :=
  { transcripts := []
    currentTranscript := ""
    replies := []
    currentReply := ""
    transcriptQueue := []
    isReplyGenerating := false
    replyServiceConnected := true
    sentToReply := [] }

/-- The transcript (if any) a single event appends to the queue: only a
successfully parsed, truthy `transcript` property reaches the queue. -/
def arrivalOf : CoordEvent → List String
  | CoordEvent.transcriptResponse (some (some t)) => if jsTruthy t then [t] else []
  | _ => []

/-- The successfully parsed (truthy) transcripts of an event list, in order. -/
def coordArrivals (es : List CoordEvent) : List String :=
  es.flatMap arrivalOf

end Coordinator

section InterviewParsing

/-! ### `InterviewMode` response parsing (src/components/InterviewMode.tsx,
`onModelResponse`, lines 158–195).  The three regexes
`/TRANSCRIPT:\s*(.+?)(?=\n\s*REPLY:)/is`, `/REPLY:\s*(.+)/is` and
`/^(TRANSCRIPT|REPLY):/im` are modelled character-exactly, including
leftmost-match scanning, greedy `\s*` with backtracking, lazy `.+?` and
greedy `.+` (the `s` flag makes `.` match newlines). -/

/-- Case-insensitive character comparison (regex `i` flag). -/
def ciEq (a b : Char) : Bool := a.toLower == b.toLower

/-- Case-insensitive anchored pattern match. -/
def ciStartsWith : List Char → List Char → Bool
  | [], _ => true
  | _ :: _, [] => false
  | p :: ps, c :: cs => ciEq p c && ciStartsWith ps cs

/-- Length of the leading whitespace run (the maximum `\s*` can consume). -/
def wsRun : List Char → Nat
  | [] => 0
  | c :: cs => if c.isWhitespace then wsRun cs + 1 else 0

/-- The lookahead `(?=\n\s*REPLY:)`: a newline, then greedy whitespace, then
`REPLY:` case-insensitively.  (`\s*` inside the lookahead must consume the
whole whitespace run: stopping early leaves a whitespace character, which can
never begin `REPLY:`.) -/
def lookaheadReply : List Char → Bool
  | '\n' :: cs => ciStartsWith "REPLY:".data (cs.drop (wsRun cs))
  | _ => false

/-- Lazy `(.+?)` followed by the lookahead: the shortest non-empty prefix
whose remainder satisfies `lookaheadReply`. -/
def lazyDotPlus : List Char → Option (List Char)
  | [] => none
  | c :: cs =>
    if lookaheadReply cs then some [c]
    else
      match lazyDotPlus cs with
      | some p => some (c :: p)
      | none => none

/-- Backtracking over the greedy `\s*` after `TRANSCRIPT:`: try consuming `w`
whitespace characters, longest first. -/
def tryWsDown (rest : List Char) : Nat → Option (List Char)
  | 0 => lazyDotPlus rest
  | w + 1 =>
    match lazyDotPlus (rest.drop (w + 1)) with
    | some p => some p
    | none => tryWsDown rest w

/-- Attempt the full transcript regex anchored at this position. -/
def matchTranscriptAt (cs : List Char) : Option (List Char) :=
  if ciStartsWith "TRANSCRIPT:".data cs then
    let rest := cs.drop 11
    tryWsDown rest (wsRun rest)
  else none

/-- Leftmost-match scan for the transcript regex. -/
def scanTranscript : List Char → Option (List Char)
  | [] => none
  | c :: cs =>
    match matchTranscriptAt (c :: cs) with
    | some p => some p
    | none => scanTranscript cs

/-- `text.match(/TRANSCRIPT:\s*(.+?)(?=\n\s*REPLY:)/is)`, capture group 1. -/
def transcriptMatchFn (s : String) : Option String :=
  (scanTranscript s.data).map String.mk

/-- Greedy `(.+)` after the greedy `\s*` of the reply regex, with
backtracking: with `w` whitespace characters consumed, `.+` takes the whole
non-empty remainder, else one fewer whitespace character is consumed. -/
def greedyTailWs (rest : List Char) : Nat → Option (List Char)
  | 0 => if rest.isEmpty then none else some rest
  | w + 1 =>
    let body := rest.drop (w + 1)
    if body.isEmpty then greedyTailWs rest w else some body

/-- Attempt the full reply regex anchored at this position. -/
def matchReplyAt (cs : List Char) : Option (List Char) :=
  if ciStartsWith "REPLY:".data cs then
    let rest := cs.drop 6
    greedyTailWs rest (wsRun rest)
  else none

/-- Leftmost-match scan for the reply regex. -/
def scanReply : List Char → Option (List Char)
  | [] => none
  | c :: cs =>
    match matchReplyAt (c :: cs) with
    | some p => some p
    | none => scanReply cs

/-- `text.match(/REPLY:\s*(.+)/is)`, capture group 1. -/
def replyMatchFn (s : String) : Option String :=
  (scanReply s.data).map String.mk

/-- A line beginning with `TRANSCRIPT:` or `REPLY:` (case-insensitive). -/
def lineStartsLabel (cs : List Char) : Bool :=
  ciStartsWith "TRANSCRIPT:".data cs || ciStartsWith "REPLY:".data cs

/-- `^` with the `m` flag matches after a line terminator. -/
def afterBreakLabel : List Char → Bool
  | [] => false
  | c :: cs => ((c == '\n' || c == '\r') && lineStartsLabel cs) || afterBreakLabel cs

/-- `/^(TRANSCRIPT|REPLY):/im.test(aiReply)` (line 178). -/
def hasLeakedLabels (s : String) : Bool :=
  lineStartsLabel s.data || afterBreakLabel s.data

/-- The React state the handler updates (entry texts only; timestamps are
display decoration). -/
structure InterviewState where
  transcript : List String
  replies : List String
  currentReply : String
deriving DecidableEq

/-- The diagnostic placeholder appended when no proper format is found. -/
def noReplyPlaceholder : String := "No reply found - model did not follow format"

/-- The `onModelResponse` handler of `InterviewMode.handleStart`
(lines 158–195): extract the `TRANSCRIPT:` section into the transcript list;
extract the `REPLY:` section into the reply list unless it contains leaked
layout labels (then it is dropped); append the placeholder only when neither
section parsed; always clear the streaming accumulator. -/
def interviewOnModelResponse (st : InterviewState) (text : String) : InterviewState :=
  let transcriptMatchR := transcriptMatchFn text
  let replyMatchR := replyMatchFn text
  let st1 :=
    match transcriptMatchR with
    | some t1 =>
      if jsTruthy t1 then { st with transcript := st.transcript ++ [jsTrim t1] } else st
    | none => st
  let st2 :=
    match replyMatchR with
    | some r1 =>
      if jsTruthy r1 then
        let aiReply := jsTrim r1
        if hasLeakedLabels aiReply then st1
        else { st1 with replies := st1.replies ++ [aiReply] }
      else if transcriptMatchR.isNone then
        { st1 with replies := st1.replies ++ [noReplyPlaceholder] }
      else st1
    | none =>
      if transcriptMatchR.isNone then
        { st1 with replies := st1.replies ++ [noReplyPlaceholder] }
      else st1
  { st2 with currentReply := "" }

end InterviewParsing

section AccumulatorLemmas

theorem lOnmessage_turnComplete (st : LState) :
    lOnmessage st lTurnCompleteMsg =
      ({ st with hasSignaledTurnStart := false, currentMessage := "" },
        if jsTruthy (jsTrim st.currentMessage) then
          [LEvent.modelResponse (jsTrim st.currentMessage)]
        else []) := by
  by_cases h : jsTruthy (jsTrim st.currentMessage) <;>
    simp [lOnmessage, lTurnCompleteMsg, appendParts, h]

theorem lRun_append (xs ys : List LiveServerMessage) (st : LState) :
    lRun st (xs ++ ys) =
      ((lRun (lRun st xs).1 ys).1, (lRun st xs).2 ++ (lRun (lRun st xs).1 ys).2) := by
  induction xs generalizing st with
  | nil => simp [lRun]
  | cons m ms ih => simp [lRun, ih, List.append_assoc]

theorem gMessagesOut_append (a b : List GEvent) :
    gMessagesOut (a ++ b) = gMessagesOut a ++ gMessagesOut b := by
  simp [gMessagesOut, List.filterMap_append]

theorem gMessagesOut_single (t : String) :
    gMessagesOut [GEvent.onMessageEv t] = [t] := rfl

theorem gCheck_cm (st : GState) (m : String) :
    (gCheckForSummaryCompletion st m).1.currentMessage = st.currentMessage := by
  unfold gCheckForSummaryCompletion
  by_cases h1 : (!st.isExpectingSummary || !st.summaryCallbackSet) = true
  · simp [h1]
  · by_cases h2 : ((summaryIndicators.any fun ind => containsSub (lowerStr m) (lowerStr ind)) &&
        decide (m.length > 150) && decide (countDataPoints m ≥ 5)) = true <;>
      simp [h1, h2]

theorem gCheck_out (st : GState) (m : String) :
    gMessagesOut (gCheckForSummaryCompletion st m).2 = [] := by
  unfold gCheckForSummaryCompletion
  by_cases h1 : (!st.isExpectingSummary || !st.summaryCallbackSet) = true
  · simp [h1, gMessagesOut]
  · by_cases h2 : ((summaryIndicators.any fun ind => containsSub (lowerStr m) (lowerStr ind)) &&
        decide (m.length > 150) && decide (countDataPoints m ≥ 5)) = true <;>
      simp [h1, h2, gMessagesOut]

theorem gOnmessage_frag (st : GState) (t : String) :
    gOnmessage st (gFragMsg t) = ({ st with currentMessage := st.currentMessage ++ t }, []) := by
  by_cases ht : t = "" <;>
    simp [gOnmessage, gFragMsg, jsTruthy, ht, strAppend_empty]

theorem gOnmessage_tc_reduce (st : GState) :
    gOnmessage st gTurnCompleteMsg =
      (if jsTruthy (jsTrim st.currentMessage) then
        ({ (gCheckForSummaryCompletion st (jsTrim st.currentMessage)).1 with currentMessage := "" },
          [GEvent.onMessageEv (jsTrim st.currentMessage)] ++
            (gCheckForSummaryCompletion st (jsTrim st.currentMessage)).2)
      else ({ st with currentMessage := "" }, [])) := by
  by_cases h : jsTruthy (jsTrim st.currentMessage) <;>
    simp [gOnmessage, gTurnCompleteMsg, h]

theorem gOnmessage_tc_cm (st : GState) :
    (gOnmessage st gTurnCompleteMsg).1.currentMessage = "" := by
  rw [gOnmessage_tc_reduce]
  by_cases h : jsTruthy (jsTrim st.currentMessage)
  · rw [if_pos h]
  · rw [if_neg h]

theorem gOnmessage_tc_out (st : GState) :
    gMessagesOut (gOnmessage st gTurnCompleteMsg).2 =
      (if jsTruthy (jsTrim st.currentMessage) then [jsTrim st.currentMessage] else []) := by
  rw [gOnmessage_tc_reduce]
  by_cases h : jsTruthy (jsTrim st.currentMessage)
  · rw [if_pos h, if_pos h]
    rw [gMessagesOut_append, gMessagesOut_single, gCheck_out]
    simp
  · rw [if_neg h, if_neg h]
    simp [gMessagesOut]

theorem gRun_frags (ts : List String) (st : GState) :
    gRun st (ts.map gFragMsg) =
      ({ st with currentMessage := st.currentMessage ++ concatAll ts }, []) := by
  induction ts generalizing st with
  | nil => simp [gRun, concatAll, strAppend_empty]
  | cons t ts ih =>
    simp only [List.map_cons, gRun, gOnmessage_frag]
    rw [ih]
    simp [concatAll, strAppend_assoc]

theorem gRun_append (xs ys : List GMessage) (st : GState) :
    gRun st (xs ++ ys) =
      ((gRun (gRun st xs).1 ys).1, (gRun st xs).2 ++ (gRun (gRun st xs).1 ys).2) := by
  induction xs generalizing st with
  | nil => simp [gRun]
  | cons m ms ih => simp [gRun, ih, List.append_assoc]

end AccumulatorLemmas

section ClaimC1

/-- C1: for every sequence of content fragments followed by exactly one
turn-complete signal, starting from an empty accumulation buffer, exactly one
completed Turn is emitted (through `onModelResponse` for `LiveApiService`,
`onMessage` for `GeminiService`) whose text is the concatenation of the
fragment texts in arrival order, trimmed; if that concatenation is
whitespace-only no Turn is emitted; in both cases the buffer ends empty. -/
theorem C1_turn_accumulation (st : LState) (gst : GState) (ts : List String) :
    (modelResponses
        (lRun { st with currentMessage := "" } (ts.map lFragMsg ++ [lTurnCompleteMsg])).2 =
      if jsTrim (concatAll ts) = "" then [] else [jsTrim (concatAll ts)]) ∧
    (lRun { st with currentMessage := "" } (ts.map lFragMsg ++ [lTurnCompleteMsg])).1.currentMessage = "" ∧
    (gMessagesOut
        (gRun { gst with currentMessage := "" } (ts.map gFragMsg ++ [gTurnCompleteMsg])).2 =
      if jsTrim (concatAll ts) = "" then [] else [jsTrim (concatAll ts)]) ∧
    (gRun { gst with currentMessage := "" } (ts.map gFragMsg ++ [gTurnCompleteMsg])).1.currentMessage = "" := by
  refine ⟨?_, ?_, ?_, ?_⟩
  · rw [lRun_append, modelResponses_append, (lRun_frags ts _).2]
    have hbuf := (lRun_frags ts ({ st with currentMessage := "" } : LState)).1
    simp only [] at hbuf
    simp only [lRun, lOnmessage_turnComplete, hbuf]
    by_cases h : jsTrim (concatAll ts) = "" <;>
      simp [modelResponses, jsTruthy, h]
  · rw [lRun_append]
    simp only [lRun, lOnmessage_turnComplete]
  · rw [gRun_append, gMessagesOut_append, gRun_frags]
    simp only [gRun]
    rw [gMessagesOut_append, gOnmessage_tc_out]
    by_cases h : jsTrim (concatAll ts) = "" <;>
      simp [gMessagesOut, jsTruthy, h]
  · rw [gRun_append, gRun_frags]
    simp only [gRun]
    exact gOnmessage_tc_cm _

end ClaimC1

section ClaimC6

/-- C6: an `interrupted` signal neither flushes nor clears the accumulation
buffer and only resets the one-shot turn-started flag (emitting nothing); in
particular with buffer `"partial te"`, a later fragment `"xt"` followed by
`turnComplete` emits exactly one Turn with text `"partial text"`. -/
theorem C6_interrupted_keeps_buffer (st st2 : LState) :
    lOnmessage st lInterruptedMsg = ({ st with hasSignaledTurnStart := false }, []) ∧
      modelResponses
        (lRun { st2 with currentMessage := "partial te" }
          [lInterruptedMsg, lFragMsg "xt", lTurnCompleteMsg]).2 = ["partial text"] := by
  have hint : ∀ s : LState,
      lOnmessage s lInterruptedMsg = ({ s with hasSignaledTurnStart := false }, []) := by
    intro s
    simp [lOnmessage, lInterruptedMsg, appendParts]
  refine ⟨hint st, ?_⟩
  simp only [lRun, hint, lOnmessage_frag, lOnmessage_turnComplete]
  have htrim : jsTrim ("partial te" ++ "xt") = "partial text" := rfl
  simp only [htrim]
  rfl

end ClaimC6

section ExampleStates

/-- A fresh, disconnected `GeminiService` state. -/
def gBase : GState :=
  { session := false
    isIntentionallyClosing := false
    currentMessage := ""
    currentSessionHandle := none
    storedHandle := none
    reconnectAttempts := 0
    reconnectTimer := none
    isExpectingSummary := false
    summaryTimer := false
    summaryCallbackSet := false
    pendingSummaryRerequest := false
    sentHandles := [] }

/-- A connected `GeminiService` state (no stored resumption handle). -/
def gConnected : GState := { gBase with session := true }

/-- A fresh, disconnected `LiveApiService` state. -/
def lBase : LState :=
  { session := false
    isIntentionallyClosing := false
    currentMessage := ""
    reconnectAttempts := 0
    reconnectTimer := none
    hasSignaledTurnStart := false }

/-- A connected `LiveApiService` state. -/
def lConnected : LState := { lBase with session := true }

end ExampleStates

section ClaimC3

/-- C3: when a reconnection succeeds (`onopen` with a resume handle) while the
summary-expectation flag is set, the accumulated-text buffer is cleared and the
re-request is scheduled within `onopen` itself — strictly before the re-issued
request; consequently the re-requested Turn is built only from post-reconnect
fragments and contains no pre-disconnect characters. -/
theorem C3_reconnect_clears_buffer (st : GState) (h : String) (ts : List String)
    (hh : h ≠ "") (hexp : st.isExpectingSummary = true) :
    (gOnopen (some h) st).currentMessage = "" ∧
    (gOnopen (some h) st).pendingSummaryRerequest = true ∧
    gMessagesOut
        (gRun (gOnopen (some h) st) (ts.map gFragMsg ++ [gTurnCompleteMsg])).2 =
      (if jsTrim (concatAll ts) = "" then [] else [jsTrim (concatAll ts)]) := by
  have htr : jsTruthyOpt (some h) = true := by
    simp [jsTruthyOpt, jsTruthy, hh]
  have hopen : gOnopen (some h) st =
      { st with
          currentMessage := ""
          pendingSummaryRerequest := true
          reconnectAttempts := 0 } := by
    simp [gOnopen, htr, hexp]
  refine ⟨by rw [hopen], by rw [hopen], ?_⟩
  rw [hopen, gRun_append, gRun_frags]
  simp only [gRun]
  rw [gMessagesOut_append, gMessagesOut_append, gOnmessage_tc_out]
  by_cases hc : jsTrim (concatAll ts) = "" <;>
    simp [gMessagesOut, jsTruthy, hc]

/-- Witness for C3 at a concrete resumed state. -/
theorem C3_witness :
    (gOnopen (some "abc123") { gConnected with isExpectingSummary := true }).currentMessage = "" ∧
    (gOnopen (some "abc123") { gConnected with isExpectingSummary := true }).pendingSummaryRerequest = true ∧
    gMessagesOut
        (gRun (gOnopen (some "abc123") { gConnected with isExpectingSummary := true })
          (["fresh summary"].map gFragMsg ++ [gTurnCompleteMsg])).2 =
      (if jsTrim (concatAll ["fresh summary"]) = "" then []
        else [jsTrim (concatAll ["fresh summary"])]) :=
  C3_reconnect_clears_buffer { gConnected with isExpectingSummary := true }
    "abc123" ["fresh summary"] (by decide) rfl

end ClaimC3

section ClaimC4

/-- C4 counterexample: calling `connect` on an already-connected Session does
NOT fail: it resolves successfully (`Except.ok`) as a logged no-op, leaving
the state unchanged — for both services. -/
theorem C4_counterexample :
    gConnect gConnected none [ConnectOutcome.success] = (gConnected, Except.ok ()) ∧
    lConnect lConnected ConnectOutcome.success = (lConnected, Except.ok ()) := by
  constructor <;> rfl

/-- C4 (amended): a `connect` call on a Session whose connection handle
already exists returns successfully as a logged warning no-op; the existing
open connection and all other state are left unchanged, and no error is
raised. -/
theorem C4_connect_on_open_is_noop (gst : GState) (lst : LState)
    (resumeHandle : Option (Option String)) (outcomes : List ConnectOutcome)
    (oc : ConnectOutcome) :
    gConnect { gst with session := true } resumeHandle outcomes =
      ({ gst with session := true }, Except.ok ()) ∧
    lConnect { lst with session := true } oc =
      ({ lst with session := true }, Except.ok ()) := by
  constructor
  · cases outcomes <;> simp [gConnect]
  · simp [lConnect]

end ClaimC4

section ClaimC5

/-- C5 counterexample: an unintentional close of a `GeminiService` with no
stored resumption handle and attempt counter `0 < 3` schedules NO reconnect
and does not increment the counter: it surfaces `onClose` instead.  (The
claim asserts every unintentional close below the cap schedules a backoff
reconnect.) -/
theorem C5_counterexample :
    (gOnclose gConnected "network error").1.reconnectAttempts = 0 ∧
    (gOnclose gConnected "network error").1.reconnectTimer = none ∧
    (gOnclose gConnected "network error").2 = [GEvent.onCloseEv "network error"] := by
  refine ⟨rfl, rfl, rfl⟩

/-- C5 (amended): on an unintentional close with the attempt counter below 3,
`LiveApiService` increments the counter and schedules a reconnect after
`min(1000·2^(attempt-1), 5000)` ms; `GeminiService` does the same provided a
resumption handle is stored (without one it surfaces `onClose` instead, as
the counterexample shows).  Three consecutive unsuccessful unintentional
closes schedule exactly 1000 ms, 2000 ms and 4000 ms. -/
theorem C5_backoff_schedule (st : LState) (gst : GState) (reason reason2 : String)
    (h1 : st.isIntentionallyClosing = false) (h2 : st.reconnectAttempts < 3)
    (h3 : gst.isIntentionallyClosing = false) (h4 : gst.reconnectAttempts < 3)
    (h5 : jsTruthyOpt gst.currentSessionHandle = true) :
    (lOnclose st reason).1.reconnectAttempts = st.reconnectAttempts + 1 ∧
    (lOnclose st reason).1.reconnectTimer =
      some (min (1000 * 2 ^ st.reconnectAttempts) 5000) ∧
    (gOnclose gst reason2).1.reconnectAttempts = gst.reconnectAttempts + 1 ∧
    (gOnclose gst reason2).1.reconnectTimer =
      some (min (1000 * 2 ^ gst.reconnectAttempts) 5000) ∧
    (lOnclose lConnected "t1").1.reconnectTimer = some 1000 ∧
    (lOnclose (lOnclose lConnected "t1").1 "t2").1.reconnectTimer = some 2000 ∧
    (lOnclose (lOnclose (lOnclose lConnected "t1").1 "t2").1 "t3").1.reconnectTimer =
      some 4000 := by
  have hl := h2
  refine ⟨?_, ?_, ?_, ?_, by decide, by decide, by decide⟩ <;>
    simp [lOnclose, gOnclose, lAttemptReconnection, gAttemptReconnection,
      maxReconnectAttempts, h1, h2, h3, h4, h5]

/-- Witness for C5 at a concrete unintentionally-closing state. -/
theorem C5_witness :
    (lOnclose lConnected "x").1.reconnectAttempts = 0 + 1 ∧
    (lOnclose lConnected "x").1.reconnectTimer = some (min (1000 * 2 ^ 0) 5000) ∧
    (gOnclose { gConnected with currentSessionHandle := some "abc123" } "x").1.reconnectAttempts = 0 + 1 ∧
    (gOnclose { gConnected with currentSessionHandle := some "abc123" } "x").1.reconnectTimer =
      some (min (1000 * 2 ^ 0) 5000) ∧
    (lOnclose lConnected "t1").1.reconnectTimer = some 1000 ∧
    (lOnclose (lOnclose lConnected "t1").1 "t2").1.reconnectTimer = some 2000 ∧
    (lOnclose (lOnclose (lOnclose lConnected "t1").1 "t2").1 "t3").1.reconnectTimer =
      some 4000 :=
  C5_backoff_schedule lConnected { gConnected with currentSessionHandle := some "abc123" }
    "x" "x" rfl (by decide) rfl (by decide) (by decide)

end ClaimC5

section ClaimC7

/-- C7 counterexample: a connect attempt with handle `"abc123"` that fails
with `"handle not found"` while the reconnect counter is 1 (a reconnection
cycle is in progress) clears the handle but makes NO retry: the connect fails
outright with the error, and only one attempt was sent. -/
theorem C7_counterexample :
    (gConnect { gBase with currentSessionHandle := some "abc123", storedHandle := some "abc123", reconnectAttempts := 1 }
        (some (some "abc123")) [ConnectOutcome.failure "handle not found"]).2 =
      Except.error "handle not found" ∧
    (gConnect { gBase with currentSessionHandle := some "abc123", storedHandle := some "abc123", reconnectAttempts := 1 }
        (some (some "abc123")) [ConnectOutcome.failure "handle not found"]).1.sentHandles =
      [some "abc123"] ∧
    (gConnect { gBase with currentSessionHandle := some "abc123", storedHandle := some "abc123", reconnectAttempts := 1 }
        (some (some "abc123")) [ConnectOutcome.failure "handle not found"]).1.currentSessionHandle =
      none ∧
    (gConnect { gBase with currentSessionHandle := some "abc123", storedHandle := some "abc123", reconnectAttempts := 1 }
        (some (some "abc123")) [ConnectOutcome.failure "handle not found"]).1.storedHandle =
      none := by
  refine ⟨rfl, rfl, rfl, rfl⟩

/-- C7 (amended): when a connect attempt carrying a stored resumption handle
fails because the remote reports it as not found, the handle is cleared from
memory and from durable local storage; provided the reconnect counter is zero,
exactly one retry is issued as a brand-new session whose `sessionResumption`
config carries no handle (and a successful retry resolves the connect);
when the counter is non-zero the cleared connect fails outright. -/
theorem C7_handle_not_found_retry (st : GState) (h msg : String) (oc : ConnectOutcome)
    (hs : st.session = false) (ha : st.reconnectAttempts = 0) (hh : h ≠ "")
    (hm : (containsSub msg "session not found" || containsSub msg "not found") = true) :
    (gConnect st (some (some h)) [ConnectOutcome.failure msg, oc]).1.sentHandles =
      st.sentHandles ++ [some h, none] ∧
    (gConnect st (some (some h)) [ConnectOutcome.failure msg, oc]).1.currentSessionHandle = none ∧
    (gConnect st (some (some h)) [ConnectOutcome.failure msg, oc]).1.storedHandle = none ∧
    (oc = ConnectOutcome.success →
      (gConnect st (some (some h)) [ConnectOutcome.failure msg, oc]).2 = Except.ok ()) := by
  have hh' : jsTruthy h = true := by simp [jsTruthy, hh]
  cases oc with
  | success =>
    simp [gConnect, hs, ha, hm, hh', jsTruthyOpt, clearSessionHandleFn, gOnopen]
  | failure m2 =>
    by_cases hm2 : (containsSub m2 "session not found" || containsSub m2 "not found") = true <;>
      simp [gConnect, hs, ha, hm, hm2, hh', jsTruthyOpt, clearSessionHandleFn]

/-- Witness for C7 at the scenario-D input. -/
theorem C7_witness :
    (gConnect { gBase with currentSessionHandle := some "abc123", storedHandle := some "abc123" }
        (some (some "abc123")) [ConnectOutcome.failure "handle not found", ConnectOutcome.success]).1.sentHandles =
      [some "abc123", none] ∧
    (gConnect { gBase with currentSessionHandle := some "abc123", storedHandle := some "abc123" }
        (some (some "abc123")) [ConnectOutcome.failure "handle not found", ConnectOutcome.success]).1.currentSessionHandle =
      none ∧
    (gConnect { gBase with currentSessionHandle := some "abc123", storedHandle := some "abc123" }
        (some (some "abc123")) [ConnectOutcome.failure "handle not found", ConnectOutcome.success]).2 =
      Except.ok () := by
  have hmain := C7_handle_not_found_retry
    { gBase with currentSessionHandle := some "abc123", storedHandle := some "abc123" }
    "abc123" "handle not found" ConnectOutcome.success rfl rfl (by decide) (by decide)
  exact ⟨by simpa [gBase] using hmain.1, hmain.2.1, hmain.2.2.2 rfl⟩

end ClaimC7

section ClaimC2

/-- The FIFO relationship between what has been submitted to the reply session
and what is still queued: the submissions are the formatted first `k`
arrivals, and the queue holds exactly the remaining arrivals in order. -/
def CoordInv (A : List String) (st : CoordState) : Prop :=
  ∃ k, k ≤ A.length ∧ st.sentToReply = (A.take k).map replyPromptFor ∧
    st.transcriptQueue = A.drop k

theorem coordInv_of_fields (A : List String) (st2 st : CoordState)
    (hs : st2.sentToReply = st.sentToReply) (hq : st2.transcriptQueue = st.transcriptQueue)
    (h : CoordInv A st) : CoordInv A st2 := by
  obtain ⟨k, hk, h1, h2⟩ := h
  exact ⟨k, hk, by rw [hs, h1], by rw [hq, h2]⟩

theorem processQueue_conn (st : CoordState) :
    (processTranscriptQueue st).replyServiceConnected = st.replyServiceConnected := by
  unfold processTranscriptQueue
  split
  · rfl
  · split
    · rfl
    · split <;> rfl

theorem processQueue_fifo (st : CoordState) (A : List String)
    (htr : ∀ x ∈ A, jsTruthy x = true) (hinv : CoordInv A st) :
    CoordInv A (processTranscriptQueue st) := by
  obtain ⟨k, hk, hsent, hq⟩ := hinv
  unfold processTranscriptQueue
  by_cases hg : (!st.replyServiceConnected || st.transcriptQueue.isEmpty || st.isReplyGenerating) = true
  · rw [if_pos hg]
    exact ⟨k, hk, hsent, hq⟩
  · rw [if_neg hg]
    cases hqe : st.transcriptQueue with
    | nil => exact ⟨k, hk, hsent, hq⟩
    | cons t rest =>
      have hdrop : A.drop k = t :: rest := by rw [← hq, hqe]
      have hget : A[k]? = some t := by
        have h0 : (A.drop k)[0]? = some t := by rw [hdrop]; simp
        rw [List.getElem?_drop] at h0
        simpa using h0
      have hkA : k < A.length := by
        by_contra hle
        push_neg at hle
        rw [List.getElem?_eq_none hle] at hget
        cases hget
      have htmem : t ∈ A := by
        have := List.getElem?_eq_some.mp hget
        obtain ⟨hlt, hval⟩ := this
        exact hval ▸ List.getElem_mem hlt
      have htk : jsTruthy t = true := htr t htmem
      have hrest : rest = A.drop (k + 1) := by
        have hdd : A.drop (k + 1) = (A.drop k).drop 1 := by
          rw [List.drop_drop, Nat.add_comm]
        rw [hdd, hdrop]
        rfl
      have hres : (match t :: rest with
          | [] => st
          | t :: rest =>
            let st1 := { st with transcriptQueue := rest }
            if !(jsTruthy t) then st1
            else { st1 with sentToReply := st1.sentToReply ++ [replyPromptFor t] }) =
          { st with
              transcriptQueue := rest
              sentToReply := st.sentToReply ++ [replyPromptFor t] } := by
        simp [htk]
      rw [hres]
      refine ⟨k + 1, hkA, ?_, ?_⟩
      · show st.sentToReply ++ [replyPromptFor t] = (A.take (k + 1)).map replyPromptFor
        rw [List.take_succ, hget, hsent]
        simp
      · exact hrest

theorem coordStep_conn (st : CoordState) (e : CoordEvent) :
    (coordStep st e).replyServiceConnected = st.replyServiceConnected := by
  cases e with
  | transcriptResponse p =>
    match p with
    | some (some t) =>
      by_cases ht : jsTruthy t = true <;>
        simp [coordStep, coordOnTranscriptResponse, ht, processQueue_conn]
    | some none => rfl
    | none => rfl
  | replyChunk => rfl
  | replyResponse p =>
    match p with
    | some (some r) =>
      by_cases hr : jsTruthy r = true <;>
        simp [coordStep, coordOnReplyResponse, hr, processQueue_conn]
    | some none => simp [coordStep, coordOnReplyResponse, processQueue_conn]
    | none => simp [coordStep, coordOnReplyResponse, processQueue_conn]

theorem coordStep_inv (st : CoordState) (e : CoordEvent) (A : List String)
    (htrA : ∀ x ∈ A, jsTruthy x = true) (hinv : CoordInv A st) :
    CoordInv (A ++ arrivalOf e) (coordStep st e) := by
  cases e with
  | transcriptResponse p =>
    match p with
    | some (some t) =>
      by_cases ht : jsTruthy t = true
      · have hstep : coordStep st (CoordEvent.transcriptResponse (some (some t))) =
            { processTranscriptQueue
                { st with
                    transcripts := st.transcripts ++ [t]
                    transcriptQueue := st.transcriptQueue ++ [t] } with
              currentTranscript := "" } := by
          simp [coordStep, coordOnTranscriptResponse, ht]
        have harr : arrivalOf (CoordEvent.transcriptResponse (some (some t))) = [t] := by
          simp [arrivalOf, ht]
        rw [hstep, harr]
        obtain ⟨k, hk, hsent, hq⟩ := hinv
        have htrA2 : ∀ x ∈ A ++ [t], jsTruthy x = true := by
          intro x hx
          rcases List.mem_append.mp hx with hx1 | hx2
          · exact htrA x hx1
          · rw [List.mem_singleton.mp hx2]; exact ht
        have hmid : CoordInv (A ++ [t])
            { st with
                transcripts := st.transcripts ++ [t]
                transcriptQueue := st.transcriptQueue ++ [t] } := by
          refine ⟨k, ?_, ?_, ?_⟩
          · simp only [List.length_append, List.length_singleton]
            omega
          · show st.sentToReply = ((A ++ [t]).take k).map replyPromptFor
            rw [List.take_append_of_le_length hk]
            exact hsent
          · show st.transcriptQueue ++ [t] = (A ++ [t]).drop k
            rw [List.drop_append_of_le_length hk, hq]
        exact coordInv_of_fields _ _ _ rfl rfl (processQueue_fifo _ _ htrA2 hmid)
      · have hstep : coordStep st (CoordEvent.transcriptResponse (some (some t))) =
            { st with currentTranscript := "" } := by
          simp [coordStep, coordOnTranscriptResponse, ht]
        have harr : arrivalOf (CoordEvent.transcriptResponse (some (some t))) = [] := by
          simp [arrivalOf, ht]
        rw [hstep, harr, List.append_nil]
        exact coordInv_of_fields _ _ _ rfl rfl hinv
    | some none =>
      have hstep : coordStep st (CoordEvent.transcriptResponse (some none)) =
          { st with currentTranscript := "" } := rfl
      rw [hstep, show arrivalOf (CoordEvent.transcriptResponse (some none)) = [] from rfl,
        List.append_nil]
      exact coordInv_of_fields _ _ _ rfl rfl hinv
    | none =>
      have hstep : coordStep st (CoordEvent.transcriptResponse none) =
          { st with currentTranscript := "" } := rfl
      rw [hstep, show arrivalOf (CoordEvent.transcriptResponse none) = [] from rfl,
        List.append_nil]
      exact coordInv_of_fields _ _ _ rfl rfl hinv
  | replyChunk =>
    rw [show arrivalOf CoordEvent.replyChunk = [] from rfl, List.append_nil]
    exact coordInv_of_fields _ _ _ rfl rfl hinv
  | replyResponse p =>
    rw [show arrivalOf (CoordEvent.replyResponse p) = [] from rfl, List.append_nil]
    match p with
    | some (some r) =>
      by_cases hr : jsTruthy r = true
      · have hstep : coordStep st (CoordEvent.replyResponse (some (some r))) =
            processTranscriptQueue
              { st with
                  replies := st.replies ++ [r]
                  currentReply := ""
                  isReplyGenerating := false } := by
          simp [coordStep, coordOnReplyResponse, hr]
        rw [hstep]
        exact processQueue_fifo _ _ htrA (coordInv_of_fields _ _ _ rfl rfl hinv)
      · have hstep : coordStep st (CoordEvent.replyResponse (some (some r))) =
            processTranscriptQueue
              { st with currentReply := "", isReplyGenerating := false } := by
          simp [coordStep, coordOnReplyResponse, hr]
        rw [hstep]
        exact processQueue_fifo _ _ htrA (coordInv_of_fields _ _ _ rfl rfl hinv)
    | some none =>
      have hstep : coordStep st (CoordEvent.replyResponse (some none)) =
          processTranscriptQueue
            { st with currentReply := "", isReplyGenerating := false } := rfl
      rw [hstep]
      exact processQueue_fifo _ _ htrA (coordInv_of_fields _ _ _ rfl rfl hinv)
    | none =>
      have hstep : coordStep st (CoordEvent.replyResponse none) =
          processTranscriptQueue
            { st with currentReply := "", isReplyGenerating := false } := rfl
      rw [hstep]
      exact processQueue_fifo _ _ htrA (coordInv_of_fields _ _ _ rfl rfl hinv)

theorem coordRun_inv (es : List CoordEvent) :
    ∀ (st : CoordState) (A : List String),
      (∀ x ∈ A, jsTruthy x = true) → CoordInv A st →
      CoordInv (A ++ coordArrivals es) (coordRun st es) := by
  induction es with
  | nil =>
    intro st A _ hinv
    simpa [coordRun, coordArrivals] using hinv
  | cons e es ih =>
    intro st A htr hinv
    have hstep := coordStep_inv st e A htr hinv
    have htr2 : ∀ x ∈ A ++ arrivalOf e, jsTruthy x = true := by
      intro x hx
      rcases List.mem_append.mp hx with hx1 | hx2
      · exact htr x hx1
      · cases e with
        | transcriptResponse p =>
          match p with
          | some (some t) =>
            by_cases ht : jsTruthy t = true
            · simp only [arrivalOf, ht, if_true, List.mem_singleton] at hx2
              rw [hx2]; exact ht
            · simp [arrivalOf, ht] at hx2
          | some none => simp [arrivalOf] at hx2
          | none => simp [arrivalOf] at hx2
        | replyChunk => simp [arrivalOf] at hx2
        | replyResponse p => simp [arrivalOf] at hx2
    have hres := ih (coordStep st e) (A ++ arrivalOf e) htr2 hstep
    have hlist : A ++ arrivalOf e ++ coordArrivals es = A ++ coordArrivals (e :: es) := by
      simp [coordArrivals, List.append_assoc]
    rw [hlist] at hres
    exact hres

/-- C2 counterexample: a single parsed transcript `"T1"` arriving at the idle
coordinator is popped and submitted while the "generating" flag stays FALSE,
and a second transcript arriving before any reply chunk is submitted
immediately as well — two outstanding submissions with no completed-turn event
in between.  (The claim asserts the flag is set at the moment of submission
and that at most one submission is outstanding.) -/
theorem C2_counterexample :
    (coordRun coordInit [CoordEvent.transcriptResponse (some (some "T1"))]).sentToReply =
      [replyPromptFor "T1"] ∧
    (coordRun coordInit [CoordEvent.transcriptResponse (some (some "T1"))]).isReplyGenerating =
      false ∧
    (coordRun coordInit [CoordEvent.transcriptResponse (some (some "T1")),
        CoordEvent.transcriptResponse (some (some "T2"))]).sentToReply =
      [replyPromptFor "T1", replyPromptFor "T2"] := by
  refine ⟨rfl, rfl, rfl⟩

/-- C2 (amended): parsed transcripts are submitted to the reply session in
exact FIFO order — after any event sequence the submissions are the formatted
first `k` arrivals and the queue holds exactly the remaining arrivals in
arrival order; a drain submits only when the "generating" flag is false (a
state whose flag is true drains nothing).  However the flag is NOT set at
submission time: it only becomes true when the first partial-response chunk
arrives, so a transcript arriving between a submission and the first chunk of
its reply is submitted immediately (see the counterexample). -/
theorem C2_fifo_order (es : List CoordEvent) (st : CoordState) :
    CoordInv (coordArrivals es) (coordRun coordInit es) ∧
    processTranscriptQueue { st with isReplyGenerating := true } =
      { st with isReplyGenerating := true } := by
  constructor
  · have hinit : CoordInv [] coordInit := ⟨0, by simp, rfl, rfl⟩
    have hres := coordRun_inv es coordInit [] (by intro x hx; cases hx) hinit
    rw [List.nil_append] at hres
    exact hres
  · unfold processTranscriptQueue
    simp

end ClaimC2

section ClaimC8

/-- C8 counterexample: the turn text
`"TRANSCRIPT: hi\nREPLY: ok\nREPLY: leak"` parses to a reply whose payload
contains a leaked `REPLY:` label; the reply is discarded but NO diagnostic
placeholder is appended — the visible reply list stays empty (only the
transcript entry is added). -/
theorem C8_counterexample :
    interviewOnModelResponse { transcript := [], replies := [], currentReply := "" }
        "TRANSCRIPT: hi\nREPLY: ok\nREPLY: leak" =
      { transcript := ["hi"], replies := [], currentReply := "" } := by
  rfl

/-- C8 (amended): whenever the parsed reply payload contains leaked layout
labels (a line beginning with `TRANSCRIPT:` or `REPLY:`), the reply is
discarded — never appended to the visible reply list — but no diagnostic
placeholder is shown in its place: the reply list is left unchanged (the
placeholder entry appears only when neither a TRANSCRIPT nor a REPLY section
parses). -/
theorem C8_leaked_labels_discarded (st : InterviewState) (text r : String)
    (hr : replyMatchFn text = some r) (hne : jsTruthy r = true)
    (hleak : hasLeakedLabels (jsTrim r) = true) :
    (interviewOnModelResponse st text).replies = st.replies := by
  unfold interviewOnModelResponse
  rw [hr]
  simp only [hne, if_true, hleak]
  cases htm : transcriptMatchFn text with
  | none => simp
  | some t1 => by_cases ht1 : jsTruthy t1 = true <;> simp [ht1]

/-- Witness for C8 at the leaked-label input. -/
theorem C8_witness :
    (interviewOnModelResponse { transcript := [], replies := [], currentReply := "" }
        "TRANSCRIPT: hi\nREPLY: ok\nREPLY: leak").replies = ([] : List String) := by
  have := C8_leaked_labels_discarded
    { transcript := [], replies := [], currentReply := "" }
    "TRANSCRIPT: hi\nREPLY: ok\nREPLY: leak" "ok\nREPLY: leak"
    (by decide) (by decide) (by decide)
  simpa using this

end ClaimC8

section ClaimC9

/-- C9 counterexample: `GeminiService.sendFrame` and `requestSummary` do not
wrap the transport call in try/catch: with a session open, a synchronous
transport failure propagates to the caller as a thrown exception. -/
theorem C9_counterexample :
    (gSendFrame gConnected "img" none none none (Except.error "send failed")).2 =
      SendResult.thrown "send failed" ∧
    (gRequestSummary gConnected (Except.error "send failed")).2 =
      SendResult.thrown "send failed" := by
  refine ⟨rfl, rfl⟩

/-- C9 (amended): every `LiveApiService` outbound send (`sendRealtimeAudio`,
`sendVideoFrame`, `sendText`, `endAudioStream`) never lets an exception escape
the service boundary — a disconnected call is a logged no-op and a transport
failure is caught and logged; `GeminiService.sendFrame` and `requestSummary`
are logged no-ops when disconnected, but do not guard the transport call, so
a transport failure escapes there (see the counterexample). -/
theorem C9_live_sends_never_throw (lst : LState) (gst : GState)
    (text audio mime frame : String) (transport : Except String Unit)
    (prompt : Option String) :
    (lSendRealtimeAudio lst audio mime transport).2.escapes = false ∧
    (lSendVideoFrame lst frame transport).2.escapes = false ∧
    (lSendText lst text transport).2.escapes = false ∧
    (lEndAudioStream lst transport).2.escapes = false ∧
    (gSendFrame { gst with session := false } frame none none prompt transport).2 =
      SendResult.noSession ∧
    (gRequestSummary { gst with session := false } transport).2 =
      SendResult.noSession := by
  refine ⟨?_, ?_, ?_, ?_, ?_, ?_⟩ <;>
    cases transport <;>
      by_cases hs : lst.session = true <;>
        simp [lSendRealtimeAudio, lSendVideoFrame, lSendText, lEndAudioStream,
          gSendFrame, gRequestSummary, SendResult.escapes, hs]

end ClaimC9

section ClaimC10

/-- C10: an intentional `disconnect()` leaves the persisted resumption handle
unchanged, both in memory and in durable local storage; it clears the
reconnect and summary timers, drops the connection handle, and (when a
session was open) resets the accumulation buffer and the summary-expectation
flag, while the reconnect counter is untouched; `clearSession()` is what
clears the handle from memory and storage. -/
theorem C10_disconnect_preserves_handle (st : GState) :
    (gDisconnect st).currentSessionHandle = st.currentSessionHandle ∧
    (gDisconnect st).storedHandle = st.storedHandle ∧
    (gDisconnect st).reconnectTimer = none ∧
    (gDisconnect st).summaryTimer = false ∧
    (gDisconnect st).session = false ∧
    (gDisconnect st).reconnectAttempts = st.reconnectAttempts ∧
    (gDisconnect { st with session := true }).currentMessage = "" ∧
    (gDisconnect { st with session := true }).isExpectingSummary = false ∧
    (gClearSession st).currentSessionHandle = none ∧
    (gClearSession st).storedHandle = none := by
  by_cases hs : st.session = true <;>
    simp [gDisconnect, gClearSession, clearSessionHandleFn, hs]

end ClaimC10
